import Mathlib

/-!
Verification of the scan-task scheduling and asset-monitoring engine of the
ARL reconnaissance platform (repository wpsec/ARL-Source-Install).

The Python sources under src/ARL are shallowly embedded: pure record
manipulation becomes Lean functions over explicit state (lists standing for
MongoDB collections), and external collaborators (the Celery queue, DNS
resolution, the crontab library, the DingTalk transport) become parameters.
Components of the repository that are referenced but absent from the source
tree (app/modules status constants, app/utils helpers, app/tasks/domain.py)
are modelled from the specification and marked as such in their doc comments.
-/

namespace ARL

/-! ### Status constants

Modelled from the spec: `app/modules/__init__.py` is not under src (only
`app/modules/wihRecord.py` is).  The spec fixes the value sets: Task.status
contains waiting/running/done/stop/error (§3 Task), MonitorJob.status is
running/stop (§3 MonitorJob), ScheduledJob.status is scheduled/done/error/stop
(§3 ScheduledJob), tags are task/monitor/risk_cruising (§3 Task). -/

def TaskStatus.WAITING : String := "waiting"

def TaskStatus.RUNNING : String := "running"

def TaskStatus.DONE : String := "done"

def TaskStatus.ERROR : String := "error"

def TaskStatus.STOP : String := "stop"

def SchedulerStatus.RUNNING : String := "running"

def SchedulerStatus.STOP : String := "stop"

def AssetScopeType.DOMAIN : String := "domain"

def AssetScopeType.IP : String := "ip"

def TaskScheduleStatus.SCHEDULED : String := "scheduled"

def TaskScheduleStatus.DONE : String := "done"

def TaskScheduleStatus.ERROR : String := "error"

def TaskScheduleStatus.STOP : String := "stop"

def TaskTag.TASK : String := "task"

def TaskTag.MONITOR : String := "monitor"

def TaskTag.RISK_CRUISING : String := "risk_cruising"

/-- Modelled from the spec: task kinds (§3 Task.kind); the string values are
those used throughout src (e.g. task documents carry type "domain"/"ip"). -/
def TaskType.DOMAIN : String := "domain"

def TaskType.IP : String := "ip"

def TaskType.RISK_CRUISING : String := "risk_cruising"

def TaskType.ASSET_SITE_UPDATE : String := "asset_site_update"

def TaskType.FOFA : String := "fofa"

def TaskType.ASSET_SITE_ADD : String := "asset_site_add"

def TaskType.ASSET_WIH_UPDATE : String := "asset_wih_update"

/-- Modelled from the spec: CeleryAction routing keys (§4.2 step 2); opaque
distinct strings, one per task kind. -/
def CeleryAction.DOMAIN_TASK : String := "domain_task"

def CeleryAction.IP_TASK : String := "ip_task"

def CeleryAction.RUN_RISK_CRUISING : String := "run_risk_cruising"

def CeleryAction.ASSET_SITE_UPDATE : String := "asset_site_update_action"

def CeleryAction.FOFA_TASK : String := "fofa_task"

def CeleryAction.ADD_ASSET_SITE_TASK : String := "add_asset_site_task"

def CeleryAction.ASSET_WIH_UPDATE : String := "asset_wih_update_action"

/-- Modelled from the spec: utils.time2date (app/utils is not under src) is a
pure timestamp-to-string formatter; its rendering is irrelevant to every
claim, only that it is a function of the timestamp. -/
def time2date (t : Int) : String := toString t

/-- Python sys.maxsize on a 64-bit host, used by stop_job as the
never-elapsing next_run_time. -/
def sys_maxsize : Int := 9223372036854775807

/-! ### MonitorJob records (collection `scheduler`) -/

/-- A document of the `scheduler` collection (a MonitorJob): the fields built
by add_job / add_asset_site_monitor_job / add_asset_wih_monitor_job in
src/ARL/app/scheduler.py.  monitor_options is omitted: it is opaque scan
configuration that no claim inspects. -/
structure MonitorJob where
  domain : String
  scope_id : String
  interval : Int
  next_run_time : Int
  next_run_date : String
  last_run_time : Int
  last_run_date : String
  run_number : Nat
  status : String
  name : String
  scope_type : String
deriving Repr, DecidableEq

/-- add_job (src/ARL/app/scheduler.py lines 51-107), the record it inserts
into the `scheduler` collection.  `now` stands for int(time.time()). -/
def add_job (now : Int) (domain scope_id : String) (interval : Int)
    (name scope_type : String) : MonitorJob :=
  let current_time := now + 30
  { domain := domain
    scope_id := scope_id
    interval := interval
    next_run_time := current_time
    next_run_date := time2date current_time
    last_run_time := 0
    last_run_date := "-"
    run_number := 0
    status := SchedulerStatus.RUNNING
    name := name
    scope_type := scope_type }

/-- add_asset_site_monitor_job (src/ARL/app/scheduler.py lines 110-141). -/
def add_asset_site_monitor_job (now : Int) (scope_id name : String)
    (interval : Int) : MonitorJob :=
  let current_time := now + 30
  { domain := "资产站点更新"
    scope_id := scope_id
    interval := interval
    next_run_time := current_time
    next_run_date := time2date current_time
    last_run_time := 0
    last_run_date := "-"
    run_number := 0
    status := SchedulerStatus.RUNNING
    name := name
    scope_type := "site_update_monitor" }

/-- add_asset_wih_monitor_job (src/ARL/app/scheduler.py lines 144-175). -/
def add_asset_wih_monitor_job (now : Int) (scope_id name : String)
    (interval : Int) : MonitorJob :=
  let current_time := now + 30
  { domain := "资产分组 WIH 更新"
    scope_id := scope_id
    interval := interval
    next_run_time := current_time
    next_run_date := time2date current_time
    last_run_time := 0
    last_run_date := "-"
    run_number := 0
    status := SchedulerStatus.RUNNING
    name := name
    scope_type := "wih_update_monitor" }

/-- stop_job (src/ARL/app/scheduler.py lines 192-209): the replacement
document written back for the job. -/
def stop_job (item : MonitorJob) : MonitorJob :=
  { item with
    next_run_date := "-"
    next_run_time := sys_maxsize
    status := SchedulerStatus.STOP }

/-- recover_job (src/ARL/app/scheduler.py lines 212-233): the replacement
document written back.  `now` stands for int(time.time()); the code first
forms current_time = now + 30 and then next_run_time = current_time +
interval. -/
def recover_job (now : Int) (item : MonitorJob) : MonitorJob :=
  let current_time := now + 30
  let next_run_time := current_time + item.interval
  { item with
    next_run_date := time2date next_run_time
    next_run_time := next_run_time
    status := SchedulerStatus.RUNNING }

/-! ### The asset-monitor scheduler pass (dispatch side) -/

/-- The kinds of queue submission one scheduler pass can make for a
MonitorJob: a Celery dispatch of a domain or ip monitor scan (submit_job), or
a site-monitor / WIH-monitor Task submission through submit_task. -/
inductive Submission where
  | domainDispatch
  | ipDispatch
  | siteMonitor
  | wihMonitor
deriving Repr, DecidableEq

/-- submit_job (src/ARL/app/scheduler.py lines 264-322): the Celery
dispatches it performs.  The body has two independent if-blocks, one for
AssetScopeType.DOMAIN and one for AssetScopeType.IP; any other scope_type
falls through both and dispatches nothing. -/
def submit_job (scope_type : String) : List Submission :=
  (if scope_type = AssetScopeType.DOMAIN then [Submission.domainDispatch] else []) ++
  (if scope_type = AssetScopeType.IP then [Submission.ipDispatch] else [])

/-- One loop-body iteration of asset_monitor_scheduler
(src/ARL/app/scheduler.py lines 381-424) for a single `scheduler` document,
projected onto the submissions it makes.  Note the source has
`if site_update_monitor: ...` followed by `if wih_update_monitor: ... else
submit_job(...)`: the else binds only to the second if, so a
site_update_monitor job also calls submit_job (which then dispatches
nothing, since its scope_type is neither domain nor ip). -/
def asset_monitor_scheduler_item (curr_time : Int) (item : MonitorJob) :
    List Submission :=
  if item.status = SchedulerStatus.STOP then []
  else if item.next_run_time ≤ curr_time then
    let scope_type := if item.scope_type = "" then AssetScopeType.DOMAIN else item.scope_type
    (if scope_type = "site_update_monitor" then [Submission.siteMonitor] else []) ++
    (if scope_type = "wih_update_monitor" then [Submission.wihMonitor]
     else submit_job scope_type)
  else []

/-- One full pass of asset_monitor_scheduler over the `scheduler` collection,
projected onto queue submissions. -/
def asset_monitor_scheduler (curr_time : Int) (jobs : List MonitorJob) :
    List Submission :=
  (jobs.map (asset_monitor_scheduler_item curr_time)).flatten

/-! ### C1: exactly one submission per MonitorJob fire -/

/-- C1: For every MonitorJob with status running whose next_run_time has
elapsed, one pass of asset_monitor_scheduler submits exactly one Task for it:
a domain or ip job yields exactly one submit_job dispatch, a
site_update_monitor job exactly one site-monitor submission, and a
wih_update_monitor job exactly one WIH-monitor submission — never more than
one submission per fire. -/
theorem asset_monitor_fire_single_submission (curr : Int) (item : ARL.MonitorJob)
    (hrun : item.status = ARL.SchedulerStatus.RUNNING)
    (hdue : item.next_run_time ≤ curr) :
    (item.scope_type = ARL.AssetScopeType.DOMAIN →
      ARL.asset_monitor_scheduler_item curr item = [ARL.Submission.domainDispatch]) ∧
    (item.scope_type = ARL.AssetScopeType.IP →
      ARL.asset_monitor_scheduler_item curr item = [ARL.Submission.ipDispatch]) ∧
    (item.scope_type = "site_update_monitor" →
      ARL.asset_monitor_scheduler_item curr item = [ARL.Submission.siteMonitor]) ∧
    (item.scope_type = "wih_update_monitor" →
      ARL.asset_monitor_scheduler_item curr item = [ARL.Submission.wihMonitor]) := by
  refine ⟨fun h => ?_, fun h => ?_, fun h => ?_, fun h => ?_⟩ <;>
    simp [ARL.asset_monitor_scheduler_item, ARL.submit_job, hrun, hdue, h,
      ARL.SchedulerStatus.RUNNING, ARL.SchedulerStatus.STOP,
      ARL.AssetScopeType.DOMAIN, ARL.AssetScopeType.IP]

/-- Concrete due domain MonitorJob, for the C1 witness. -/
def c1_job : ARL.MonitorJob :=
  { domain := "example.com"
    scope_id := "scope1"
    interval := 21600
    next_run_time := 100
    next_run_date := "-"
    last_run_time := 0
    last_run_date := "-"
    run_number := 0
    status := "running"
    name := "monitor-example"
    scope_type := "domain" }

/-- C1 witness: a running domain monitor whose next_run_time (100) has
elapsed at tick 100 produces exactly the single domain dispatch. -/
theorem asset_monitor_fire_single_submission_witness :
    ARL.asset_monitor_scheduler_item 100 c1_job = [ARL.Submission.domainDispatch] :=
  (asset_monitor_fire_single_submission 100 c1_job rfl (by decide)).1 rfl

/-! ### C8: stop_job / recover_job next_run_time bookkeeping -/

/-- Concrete stopped MonitorJob, for the C8 counterexample and witness. -/
def c8_job : ARL.MonitorJob :=
  { domain := "c8.example.com"
    scope_id := "scope8"
    interval := 21600
    next_run_time := 1000
    next_run_date := "-"
    last_run_time := 0
    last_run_date := "-"
    run_number := 3
    status := "stop"
    name := "monitor-c8"
    scope_type := "domain" }

/-- C8 counterexample: the claim says recover_job recomputes next_run_time to
now + interval, but the code sets it to (now + 30) + interval: at now = 0 and
interval = 21600 the stored next_run_time is 21630, not 21600. -/
theorem recover_job_offset_counterexample :
    (ARL.recover_job 0 c8_job).next_run_time ≠ 0 + c8_job.interval := by decide

/-- C8 (amended): recover_job sets status to running and next_run_time to
(now + 30) + interval — a 30-second grace offset, the same one add_job uses
at creation — and stop_job sets status to stop and next_run_time to
sys.maxsize, which never elapses for any clock reading below sys.maxsize. -/
theorem stop_recover_job_next_run (now : Int) (item : ARL.MonitorJob) :
    (ARL.recover_job now item).status = ARL.SchedulerStatus.RUNNING ∧
    (ARL.recover_job now item).next_run_time = now + 30 + item.interval ∧
    (ARL.stop_job item).status = ARL.SchedulerStatus.STOP ∧
    (ARL.stop_job item).next_run_time = ARL.sys_maxsize ∧
    (∀ curr : Int, curr < ARL.sys_maxsize → ¬ ((ARL.stop_job item).next_run_time ≤ curr)) := by
  refine ⟨rfl, rfl, rfl, rfl, ?_⟩
  intro curr hcurr h
  simp only [ARL.stop_job] at h
  omega

/-- C8 witness: at a concrete clock reading (12345, far below sys.maxsize) a
stopped job's next_run_time has not elapsed. -/
theorem stop_recover_job_next_run_witness :
    ¬ ((ARL.stop_job c8_job).next_run_time ≤ 12345) :=
  (stop_recover_job_next_run 0 c8_job).2.2.2.2 12345 (by decide)

/-! ### C2: merge-conflict markers in message_notify.py -/

/-- A git merge-conflict marker line: the three marker shapes git writes. -/
def conflict_marker_line (s : String) : Bool :=
  "<<<<<<<".toList.isPrefixOf s.toList ||
  "=======".toList.isPrefixOf s.toList ||
  ">>>>>>>".toList.isPrefixOf s.toList

/-- Lines 9-12 of src/ARL/app/helpers/message_notify.py, verbatim. -/
def message_notify_lines_9_12 : List String :=
  ["<<<<<<< HEAD",
   "from bson import ObjectId",
   "=======",
   ">>>>>>> 2206ccf2c4fd7a50bd4600ba24497329f627c06b"]

/-- Lines 196-198 of src/ARL/app/helpers/message_notify.py, verbatim. -/
def message_notify_lines_196_198 : List String :=
  ["=======",
   "",
   ">>>>>>> 2206ccf2c4fd7a50bd4600ba24497329f627c06b"]

/-- A Python module of the repository, as far as import-time behaviour is
concerned: the source lines relevant to parsing and the repository modules
its import statements load at module load time. -/
structure PyModule where
  modname : String
  lines : List String
  imports : List String
deriving Repr, DecidableEq

/-- src/ARL/app/helpers/message_notify.py: its conflict-marked lines (9-12
and 196-198) and its imports (lines 13-16). -/
def message_notify_module : PyModule :=
  { modname := "app.helpers.message_notify"
    lines := message_notify_lines_9_12 ++ message_notify_lines_196_198
    imports := ["app.config", "app.utils", "app.modules"] }

/-- src/ARL/app/helpers/task_schedule.py: line 17 is
`from .message_notify import push_dingding`, executed at module load. -/
def task_schedule_module : PyModule :=
  { modname := "app.helpers.task_schedule"
    lines := []
    imports := ["app.modules", "app.helpers.policy", "app.helpers.message_notify"] }

/-- src/ARL/app/scheduler.py: line 26 is
`from app.helpers import task_schedule, ...`, executed at module load. -/
def app_scheduler_module : PyModule :=
  { modname := "app.scheduler"
    lines := []
    imports := ["app.modules", "app.helpers.task_schedule"] }

/-- The modelled module environment. -/
def module_env : List PyModule :=
  [message_notify_module, task_schedule_module, app_scheduler_module]

/-- Modelled (CPython semantics, external to the repository): a module whose
source holds a line beginning with a git conflict marker is not syntactically
valid Python — no Python statement or expression may begin with `<<<<<<<` or
`>>>>>>>`, and a bare `=======` line is likewise invalid — so parsing, and
therefore importing, the module fails. -/
def module_parses (m : PyModule) : Bool :=
  !(m.lines.any conflict_marker_line)

/-- Modelled (CPython semantics): importing a module succeeds only if its own
source parses and every module it imports can itself be imported.  Modules
outside the modelled environment are assumed importable; `fuel` bounds the
import-chain depth. -/
def import_ok (env : List PyModule) : Nat → String → Bool
  | 0, _ => false
  | fuel + 1, modname =>
    match env.find? (fun m => m.modname = modname) with
    | none => true
    | some m => module_parses m && m.imports.all (import_ok env fuel)

/-- C2: message_notify.py contains unresolved git merge-conflict marker lines
and hence is not valid Python; importing push_dingding from it fails, so
task_schedule (which imports it at load) and app/scheduler (which imports
task_schedule) cannot load, and the Schedule-Run reconciliation and
notification path cannot execute. -/
theorem message_notify_merge_conflict_blocks_import :
    (message_notify_module.lines.any conflict_marker_line = true) ∧
    module_parses message_notify_module = false ∧
    import_ok module_env 10 "app.helpers.message_notify" = false ∧
    import_ok module_env 10 "app.helpers.task_schedule" = false ∧
    import_ok module_env 10 "app.scheduler" = false := by
  refine ⟨?_, ?_, ?_, ?_, ?_⟩ <;> decide

/-! ### C6: recurrent-job cron lookahead and cooldown -/

/-- A document of the `task_schedule` collection (a ScheduledJob), the fields
task_scheduler reads (src/ARL/app/helpers/task_schedule.py lines 42-68). -/
structure TaskScheduleItem where
  status : String
  task_tag : String
  schedule_type : String
  cron : String
  start_time : Int
  last_run_time : Int
  run_number : Nat
deriving Repr, DecidableEq

/-- The firing decision of one loop-body iteration of task_scheduler
(src/ARL/app/helpers/task_schedule.py lines 43-68) for a single item:
whether run_recurrent_scan (recurrent_scan branch) or run_future_scan
(future_scan branch) is invoked.  `now` stands for time.time() and
`next_sec` for CronTab(item.cron).next(default_utc=False), computed by the
external crontab library. -/
def task_scheduler_fires (item : TaskScheduleItem) (now next_sec : Int) : Bool :=
  if item.status = TaskScheduleStatus.SCHEDULED then
    if item.task_tag = TaskTag.TASK ∨ item.task_tag = TaskTag.RISK_CRUISING then
      if item.schedule_type = "recurrent_scan" then
        decide (next_sec < 60) && decide (180 < (now - item.last_run_time).natAbs)
      else if item.schedule_type = "future_scan" then
        decide (0 < item.start_time) && decide (item.start_time ≤ now)
      else false
    else false
  else false

/-- C6: a recurrent ScheduledJob with status scheduled (and a schedulable
task_tag) fires on a tick iff its cron's next-occurrence offset is below the
60-second lookahead and more than the 180-second cooldown has passed since
its last fire; in particular, within the lookahead, a job last fired 30
seconds ago does not re-fire and one last fired 181 seconds ago fires. -/
theorem recurrent_cron_cooldown (item : TaskScheduleItem) (now next_sec : Int)
    (hst : item.status = TaskScheduleStatus.SCHEDULED)
    (htag : item.task_tag = TaskTag.TASK ∨ item.task_tag = TaskTag.RISK_CRUISING)
    (hty : item.schedule_type = "recurrent_scan")
    (hpast : item.last_run_time ≤ now) :
    (task_scheduler_fires item now next_sec = true ↔
      (next_sec < 60 ∧ 180 < now - item.last_run_time)) ∧
    (next_sec < 60 → now - item.last_run_time = 30 →
      task_scheduler_fires item now next_sec = false) ∧
    (next_sec < 60 → now - item.last_run_time = 181 →
      task_scheduler_fires item now next_sec = true) := by
  simp only [task_scheduler_fires, if_pos hst, if_pos htag, if_pos hty,
    Bool.and_eq_true, decide_eq_true_eq, Bool.and_eq_false_iff,
    decide_eq_false_iff_not]
  refine ⟨⟨fun h => ⟨h.1, by have := h.2; omega⟩, fun h => ⟨h.1, by omega⟩⟩,
    fun h1 h2 => Or.inr (by omega), fun h1 h2 => ⟨h1, by omega⟩⟩

/-- Concrete recurrent ScheduledJob, for the C6 witness. -/
def c6_item : TaskScheduleItem :=
  { status := "scheduled"
    task_tag := "task"
    schedule_type := "recurrent_scan"
    cron := "*/5 * * * *"
    start_time := 0
    last_run_time := 0
    run_number := 2 }

/-- C6 witness: at tick 181 with next-occurrence offset 59, a job last fired
at 0 (181 seconds ago) fires. -/
theorem recurrent_cron_cooldown_witness :
    task_scheduler_fires c6_item 181 59 = true :=
  (recurrent_cron_cooldown c6_item 181 59 rfl (Or.inl rfl) rfl (by decide)).2.2
    (by decide) (by decide)

/-! ### C5: the Task Submission Protocol (submit_task) -/

/-- A document of the `task` collection, with the fields submit_task reads
and writes (options, service and timestamps are opaque to the claims).
`id` is the string form of the Mongo _id; on the value submit_task returns
it doubles as the task_id field the function adds. -/
structure TaskDoc where
  id : String
  name : String
  target : String
  status : String
  type : String
  task_tag : String
  celery_id : String
deriving Repr, DecidableEq

/-- The type_map_action table of submit_task (src/ARL/app/helpers/task.py
lines 213-221); an unmapped type leaves celery_action as "" and trips the
assert. -/
def type_map_action (t : String) : String :=
  if t = TaskType.DOMAIN then CeleryAction.DOMAIN_TASK
  else if t = TaskType.IP then CeleryAction.IP_TASK
  else if t = TaskType.RISK_CRUISING then CeleryAction.RUN_RISK_CRUISING
  else if t = TaskType.ASSET_SITE_UPDATE then CeleryAction.ASSET_SITE_UPDATE
  else if t = TaskType.FOFA then CeleryAction.FOFA_TASK
  else if t = TaskType.ASSET_SITE_ADD then CeleryAction.ADD_ASSET_SITE_TASK
  else if t = TaskType.ASSET_WIH_UPDATE then CeleryAction.ASSET_WIH_UPDATE
  else ""

/-- The delete_one call of submit_task's except-branch
(src/ARL/app/helpers/task.py line 246): remove the first document matching
both the _id and status waiting — a record whose status is no longer waiting
is left in place. -/
def delete_waiting_task : List TaskDoc → String → List TaskDoc
  | [], _ => []
  | d :: rest, tid =>
    if d.id = tid ∧ d.status = TaskStatus.WAITING then rest
    else d :: delete_waiting_task rest tid

/-- The update_one call of submit_task's success path
(src/ARL/app/helpers/task.py lines 240-242): persist the queue handle onto
the task record. -/
def update_task_celery_id (db : List TaskDoc) (tid cid : String) : List TaskDoc :=
  db.map (fun d => if d.id = tid then { d with celery_id := cid } else d)

/-- The outcome of submit_task: the value returned or error raised, and the
`task` collection afterwards. -/
structure SubmitOutcome where
  result : Except String TaskDoc
  db : List TaskDoc
deriving Repr

/-- submit_task (src/ARL/app/helpers/task.py lines 186-250).  `tid` is the
_id Mongo assigns at insert_one; `enq` the outcome of
celerytask.arl_task.delay (the Task Queue Gateway, external): ok carries the
celery id, error the raised exception.  Steps: insert the record; resolve the
routing key (a failed assert raises before any enqueue); enqueue; on success
persist the celery_id, on failure delete the still-waiting record and
re-raise. -/
def submit_task (db : List TaskDoc) (task_data : TaskDoc) (tid : String)
    (enq : Except String String) : SubmitOutcome :=
  let inserted := { task_data with id := tid }
  let db1 := db ++ [inserted]
  let celery_action := type_map_action task_data.type
  if celery_action = "" then { result := .error "AssertionError", db := db1 }
  else
    match enq with
    | .ok cid =>
      { result := .ok { inserted with celery_id := cid }
        db := update_task_celery_id db1 tid cid }
    | .error e =>
      { result := .error e, db := delete_waiting_task db1 tid }

/-- Deleting tid from a store of other ids followed by a fresh waiting record
of id tid restores the original store. -/
theorem delete_waiting_task_append_fresh (db : List TaskDoc) (ins : TaskDoc)
    (tid : String) (hfresh : ∀ d ∈ db, d.id ≠ tid)
    (hid : ins.id = tid) (hst : ins.status = TaskStatus.WAITING) :
    delete_waiting_task (db ++ [ins]) tid = db := by
  induction db with
  | nil => simp [delete_waiting_task, hid, hst]
  | cons d rest ih =>
    have hd : d.id ≠ tid := hfresh d (by simp)
    simp only [List.cons_append, delete_waiting_task]
    rw [if_neg (by simp [hd])]
    show d :: delete_waiting_task (rest ++ [ins]) tid = d :: rest
    rw [ih (fun x hx => hfresh x (by simp [hx]))]

/-- delete_waiting_task never removes a record whose status is not waiting. -/
theorem delete_waiting_task_keeps_nonwaiting (db : List TaskDoc) (tid : String) :
    ∀ d ∈ db, d.status ≠ TaskStatus.WAITING → d ∈ delete_waiting_task db tid := by
  induction db with
  | nil => simp
  | cons x rest ih =>
    intro d hd hs
    simp only [delete_waiting_task]
    by_cases hc : x.id = tid ∧ x.status = TaskStatus.WAITING
    · rw [if_pos hc]
      rcases List.mem_cons.mp hd with h | h
      · subst h
        exact absurd hc.2 hs
      · exact h
    · rw [if_neg hc]
      rcases List.mem_cons.mp hd with h | h
      · exact h ▸ List.mem_cons_self x _
      · exact List.mem_cons_of_mem x (ih d h hs)

/-- C5: if the enqueue inside submit_task fails, the Task record persisted in
step 1 no longer exists afterwards (no orphan waiting row) — the deletion
touches only records still in status waiting — and the error is propagated to
the caller; on enqueue success the returned celery_id is persisted onto the
Task record. -/
theorem submit_task_enqueue_rollback (db : List TaskDoc) (task_data : TaskDoc)
    (tid e cid : String)
    (hfresh : ∀ d ∈ db, d.id ≠ tid)
    (hw : task_data.status = TaskStatus.WAITING)
    (hact : type_map_action task_data.type ≠ "") :
    ((submit_task db task_data tid (.error e)).result = .error e ∧
     ∀ d ∈ (submit_task db task_data tid (.error e)).db, d.id ≠ tid) ∧
    (∀ d ∈ db, d.status ≠ TaskStatus.WAITING → d ∈ delete_waiting_task db tid) ∧
    ((submit_task db task_data tid (.ok cid)).result =
       .ok { task_data with id := tid, celery_id := cid } ∧
     { task_data with id := tid, celery_id := cid } ∈
       (submit_task db task_data tid (.ok cid)).db) := by
  have hdel : delete_waiting_task (db ++ [{ task_data with id := tid }]) tid = db :=
    delete_waiting_task_append_fresh db _ tid hfresh rfl hw
  refine ⟨⟨?_, ?_⟩, delete_waiting_task_keeps_nonwaiting db tid, ?_, ?_⟩
  · simp [submit_task, hact]
  · intro d hd
    simp only [submit_task, if_neg hact] at hd
    rw [hdel] at hd
    exact hfresh d hd
  · simp [submit_task, hact]
  · simp only [submit_task, if_neg hact, update_task_celery_id]
    refine List.mem_map.mpr ⟨{ task_data with id := tid }, by simp, by simp⟩

/-- Concrete task payload, for the C5 witness. -/
def c5_task : TaskDoc :=
  { id := ""
    name := "scan-example"
    target := "example.org"
    status := "waiting"
    type := "domain"
    task_tag := "task"
    celery_id := "" }

/-- C5 witness: submitting into an empty collection with a failing enqueue
propagates the error. -/
theorem submit_task_enqueue_rollback_witness :
    (submit_task [] c5_task "id1" (.error "queue down")).result = .error "queue down" :=
  ((submit_task_enqueue_rollback [] c5_task "id1" "queue down" "cid1"
    (by simp) rfl (by decide)).1).1

/-! ### The Schedule-Run summary (task_schedule.py) -/

/-- The run-record collection name and status constants of
src/ARL/app/helpers/task_schedule.py lines 21-28. -/
def RUN_STATUS_RUNNING : String := "running"

def RUN_STATUS_FINISHED : String := "finished"

def RUN_STATUS_ERROR : String := "error"

def RUN_PUSH_PENDING : String := "pending"

def RUN_PUSH_SUCCESS : String := "success"

def RUN_PUSH_ERROR : String := "error"

def RUN_PUSH_SKIP : String := "skip"

/-- The statistic sub-document of a task record, as read by
build_schedule_run_summary (asset-count totals). -/
structure Statistic where
  site_cnt : Nat
  domain_cnt : Nat
  ip_cnt : Nat
  url_cnt : Nat
  vuln_cnt : Nat
deriving Repr, DecidableEq

/-- A document of the `task` collection in the projection
build_schedule_run_summary queries (status, name, target, type, statistic);
statistic is optional, as in the source (`item.get("statistic", ...)`). -/
structure StoredTask where
  id : String
  name : String
  target : String
  type : String
  status : String
  statistic : Option Statistic
deriving Repr, DecidableEq

/-- One entry of summary.task_details
(src/ARL/app/helpers/task_schedule.py lines 233-246). -/
structure TaskDetail where
  id : String
  name : String
  target : String
  type : String
  status : String
  site_cnt : Nat
  domain_cnt : Nat
  ip_cnt : Nat
  url_cnt : Nat
  vuln_cnt : Nat
deriving Repr, DecidableEq

/-- The summary dict built by build_schedule_run_summary
(src/ARL/app/helpers/task_schedule.py lines 176-190). -/
structure RunSummary where
  total : Nat
  done : Nat
  error : Nat
  stop : Nat
  waiting : Nat
  running : Nat
  missing : Nat
  site_cnt : Nat
  domain_cnt : Nat
  ip_cnt : Nat
  url_cnt : Nat
  vuln_cnt : Nat
  task_details : List TaskDetail
deriving Repr, DecidableEq

/-- Modelled: bson.ObjectId(s) (the bson library is external to the repo)
succeeds on a string exactly when it is 24 hexadecimal characters. -/
def is_valid_object_id (s : String) : Bool :=
  s.length = 24 && s.toList.all (fun c => c.isDigit || "abcdefABCDEF".toList.contains c)

/-- The per-found-task detail record (lines 233-246). -/
def detail_of (item : StoredTask) : TaskDetail :=
  { id := item.id
    name := item.name
    target := item.target
    type := item.type
    status := item.status
    site_cnt := (item.statistic.map Statistic.site_cnt).getD 0
    domain_cnt := (item.statistic.map Statistic.domain_cnt).getD 0
    ip_cnt := (item.statistic.map Statistic.ip_cnt).getD 0
    url_cnt := (item.statistic.map Statistic.url_cnt).getD 0
    vuln_cnt := (item.statistic.map Statistic.vuln_cnt).getD 0 }

/-- One iteration of the `for item in items` loop of
build_schedule_run_summary (lines 212-246): bucket the status (any status
outside done/error/stop/waiting counts as running), accumulate the statistic
totals, append the detail row. -/
def summary_add_item (s : RunSummary) (item : StoredTask) : RunSummary :=
  let s :=
    if item.status = TaskStatus.DONE then { s with done := s.done + 1 }
    else if item.status = TaskStatus.ERROR then { s with error := s.error + 1 }
    else if item.status = TaskStatus.STOP then { s with stop := s.stop + 1 }
    else if item.status = TaskStatus.WAITING then { s with waiting := s.waiting + 1 }
    else { s with running := s.running + 1 }
  let s :=
    match item.statistic with
    | some st =>
      { s with
        site_cnt := s.site_cnt + st.site_cnt
        domain_cnt := s.domain_cnt + st.domain_cnt
        ip_cnt := s.ip_cnt + st.ip_cnt
        url_cnt := s.url_cnt + st.url_cnt
        vuln_cnt := s.vuln_cnt + st.vuln_cnt }
    | none => s
  { s with task_details := s.task_details ++ [detail_of item] }

/-- The Mongo find on the `task` collection with filter
`_id: $in object_ids`: every stored document whose id occurs in the list,
each at most once (ids are unique in the collection, so duplicated query ids
still match a document only once). -/
def find_tasks_in (store : List StoredTask) (object_ids : List String) :
    List StoredTask :=
  object_ids.dedup.filterMap (fun oid => store.find? (fun t => t.id = oid))

/-- build_schedule_run_summary (src/ARL/app/helpers/task_schedule.py lines
172-248).  `store` stands for the `task` collection.  Ids that fail ObjectId
parsing are counted missing in the try/except loop; ids that parse but match
no document are counted missing via `max(len(object_ids) - len(items), 0)`
(Nat subtraction is exactly that max). -/
def build_schedule_run_summary (store : List StoredTask)
    (task_ids : List String) : RunSummary :=
  let init : RunSummary :=
    { total := task_ids.length, done := 0, error := 0, stop := 0, waiting := 0
      running := 0, missing := 0, site_cnt := 0, domain_cnt := 0, ip_cnt := 0
      url_cnt := 0, vuln_cnt := 0, task_details := [] }
  if task_ids = [] then init
  else
    let object_ids := task_ids.filter is_valid_object_id
    let invalid := task_ids.length - object_ids.length
    let s0 := { init with missing := invalid }
    if object_ids = [] then s0
    else
      let items := find_tasks_in store object_ids
      let s1 := { s0 with missing := s0.missing + (object_ids.length - items.length) }
      items.foldl summary_add_item s1

/-- Whether a found task is bucketed as running by summary_add_item. -/
def counted_running (t : StoredTask) : Bool :=
  if t.status = TaskStatus.DONE ∨ t.status = TaskStatus.ERROR ∨
     t.status = TaskStatus.STOP ∨ t.status = TaskStatus.WAITING then false else true

/-- Folding summary_add_item leaves total and missing alone, grows the five
status buckets by exactly one per item, and grows running by exactly the
items bucketed as running. -/
theorem summary_fold_counts (items : List StoredTask) (s : RunSummary) :
    (items.foldl summary_add_item s).total = s.total ∧
    (items.foldl summary_add_item s).missing = s.missing ∧
    (items.foldl summary_add_item s).done + (items.foldl summary_add_item s).error +
      (items.foldl summary_add_item s).stop + (items.foldl summary_add_item s).waiting +
      (items.foldl summary_add_item s).running
      = s.done + s.error + s.stop + s.waiting + s.running + items.length ∧
    (items.foldl summary_add_item s).running = s.running + items.countP counted_running := by
  induction items generalizing s with
  | nil => simp
  | cons t rest ih =>
    have step :
        (summary_add_item s t).total = s.total ∧
        (summary_add_item s t).missing = s.missing ∧
        (summary_add_item s t).done + (summary_add_item s t).error +
          (summary_add_item s t).stop + (summary_add_item s t).waiting +
          (summary_add_item s t).running
          = s.done + s.error + s.stop + s.waiting + s.running + 1 ∧
        (summary_add_item s t).running
          = s.running + (if counted_running t then 1 else 0) := by
      rcases hstat : t.statistic with _ | st <;>
        simp only [summary_add_item, counted_running, hstat, TaskStatus.DONE,
          TaskStatus.ERROR, TaskStatus.STOP, TaskStatus.WAITING] <;>
        by_cases h1 : t.status = "done" <;>
        by_cases h2 : t.status = "error" <;>
        by_cases h3 : t.status = "stop" <;>
        by_cases h4 : t.status = "waiting" <;>
        simp [h1, h2, h3, h4] <;> omega
    obtain ⟨ht, hm, hsum, hr⟩ := ih (summary_add_item s t)
    refine ⟨by simp [List.foldl_cons, ht, step.1], by simp [List.foldl_cons, hm, step.2.1], ?_, ?_⟩
    · simp only [List.foldl_cons] at hsum ⊢
      rw [hsum, step.2.2.1]
      simp only [List.length_cons]
      omega
    · simp only [List.foldl_cons] at hr ⊢
      rw [hr, step.2.2.2, List.countP_cons]
      cases hc : counted_running t <;> simp [hc] <;> omega

/-- Filtering on the negation of a predicate keeps exactly the elements the
positive filter drops. -/
theorem length_filter_not_eq_sub (l : List String) (p : String → Bool) :
    (l.filter (fun x => !(p x))).length = l.length - (l.filter p).length := by
  induction l with
  | nil => rfl
  | cons x xs ih =>
    have hle := List.length_filter_le p xs
    by_cases h : p x = true <;> simp [List.filter_cons, h, ih] <;> omega

/-- build_schedule_run_summary, written as one fold from the init record:
the three branches of the source collapse to this single expression. -/
theorem build_schedule_run_summary_eq (store : List StoredTask)
    (task_ids : List String) :
    build_schedule_run_summary store task_ids =
      (find_tasks_in store (task_ids.filter is_valid_object_id)).foldl summary_add_item
        { total := task_ids.length, done := 0, error := 0, stop := 0, waiting := 0
          running := 0
          missing := (task_ids.length - (task_ids.filter is_valid_object_id).length)
            + ((task_ids.filter is_valid_object_id).length
                - (find_tasks_in store (task_ids.filter is_valid_object_id)).length)
          site_cnt := 0, domain_cnt := 0, ip_cnt := 0, url_cnt := 0, vuln_cnt := 0
          task_details := [] } := by
  by_cases h0 : task_ids = []
  · subst h0
    simp [build_schedule_run_summary, find_tasks_in]
  · by_cases h1 : task_ids.filter is_valid_object_id = []
    · simp only [build_schedule_run_summary]
      rw [if_neg h0, if_pos h1, h1]
      simp [find_tasks_in]
    · simp only [build_schedule_run_summary]
      rw [if_neg h0, if_neg h1]

/-- C10: build_schedule_run_summary returns a summary whose total is the
input length, with done + error + stop + waiting + running + missing = total;
syntactically invalid ids and valid ids matching no task document are the
missing count, and every found task whose status is none of
done/error/stop/waiting is bucketed as running. -/
theorem schedule_run_summary_partition (store : List StoredTask)
    (task_ids : List String) :
    (build_schedule_run_summary store task_ids).total = task_ids.length ∧
    (build_schedule_run_summary store task_ids).done +
      (build_schedule_run_summary store task_ids).error +
      (build_schedule_run_summary store task_ids).stop +
      (build_schedule_run_summary store task_ids).waiting +
      (build_schedule_run_summary store task_ids).running +
      (build_schedule_run_summary store task_ids).missing = task_ids.length ∧
    (build_schedule_run_summary store task_ids).missing =
      (task_ids.filter (fun i => !(is_valid_object_id i))).length +
      ((task_ids.filter is_valid_object_id).length -
        (find_tasks_in store (task_ids.filter is_valid_object_id)).length) ∧
    (build_schedule_run_summary store task_ids).running =
      (find_tasks_in store (task_ids.filter is_valid_object_id)).countP counted_running := by
  have hvle : (task_ids.filter is_valid_object_id).length ≤ task_ids.length :=
    List.length_filter_le _ _
  have hitems : (find_tasks_in store (task_ids.filter is_valid_object_id)).length ≤
      (task_ids.filter is_valid_object_id).length := by
    calc (find_tasks_in store (task_ids.filter is_valid_object_id)).length
        ≤ (task_ids.filter is_valid_object_id).dedup.length :=
          List.length_filterMap_le _ _
      _ ≤ (task_ids.filter is_valid_object_id).length :=
          (List.dedup_sublist _).length_le
  have hinv := length_filter_not_eq_sub task_ids is_valid_object_id
  rw [build_schedule_run_summary_eq]
  obtain ⟨ht, hm, hsum, hr⟩ := summary_fold_counts
    (find_tasks_in store (task_ids.filter is_valid_object_id))
    { total := task_ids.length, done := 0, error := 0, stop := 0, waiting := 0
      running := 0
      missing := (task_ids.length - (task_ids.filter is_valid_object_id).length)
        + ((task_ids.filter is_valid_object_id).length
            - (find_tasks_in store (task_ids.filter is_valid_object_id)).length)
      site_cnt := 0, domain_cnt := 0, ip_cnt := 0, url_cnt := 0, vuln_cnt := 0
      task_details := [] }
  dsimp only at ht hm hsum hr
  exact ⟨ht, by omega, by omega, by omega⟩

/-! ### C3 / C4: the Schedule-Run Aggregator and Notification Gate -/

/-- Python str.lower(), over the character list. -/
def py_lower (s : String) : String := String.mk (s.toList.map Char.toLower)

/-- should_push_schedule_run (src/ARL/app/helpers/task_schedule.py lines
251-260): always → push; failed/error → push only on run error; default
(finished) → push only on run finished. -/
def should_push_schedule_run (notify_on run_status : String) : Bool :=
  let n := py_lower (if notify_on = "" then "finished" else notify_on)
  if n = "always" then true
  else if n = "failed" ∨ n = "error" then decide (run_status = RUN_STATUS_ERROR)
  else decide (run_status = RUN_STATUS_FINISHED)

/-- A document of the `task_schedule_run` collection (a ScheduleRun), the
fields created by create_task_schedule_run and read/written by
process_task_schedule_runs. -/
structure RunItem where
  id : String
  schedule_id : String
  schedule_name : String
  schedule_type : String
  task_tag : String
  run_number : Nat
  task_ids : List String
  status : String
  summary : RunSummary
  notify_enable : Bool
  notify_channel : String
  notify_on : String
  push_status : String
  start_time : Int
  start_date : String
  end_time : Int
  end_date : String
  push_date : String
deriving Repr, DecidableEq

/-- One iteration of the loop body of process_task_schedule_runs
(src/ARL/app/helpers/task_schedule.py lines 360-392) on a single running run
item.  `store` stands for the `task` collection, `push_ok` for the transport
outcome of push_dingding (external DingTalk webhook), `now`/`today` for the
clock.  Returns the document written back and the number of notification
sends attempted. -/
def process_schedule_run (store : List StoredTask) (push_ok : Bool)
    (now : Int) (today : String) (run : RunItem) : RunItem × Nat :=
  let summary := build_schedule_run_summary store run.task_ids
  let run1 := { run with summary := summary }
  if summary.waiting > 0 ∨ summary.running > 0 then
    (run1, 0)
  else
    let failed_count := summary.error + summary.stop + summary.missing
    let run2 := { run1 with
      status := if failed_count = 0 then RUN_STATUS_FINISHED else RUN_STATUS_ERROR
      end_time := now
      end_date := today
      push_status := RUN_PUSH_SKIP }
    let notify_channel :=
      py_lower (if run.notify_channel = "" then "dingding" else run.notify_channel)
    if run.notify_enable && should_push_schedule_run run.notify_on run2.status then
      if notify_channel = "dingding" then
        ({ run2 with
            push_status := if push_ok then RUN_PUSH_SUCCESS else RUN_PUSH_ERROR
            push_date := today }, 1)
      else
        ({ run2 with push_status := RUN_PUSH_ERROR, push_date := today }, 0)
    else
      (run2, 0)

/-- process_task_schedule_runs (src/ARL/app/helpers/task_schedule.py lines
349-392): the query selects only runs with status running; every other run
document is left untouched.  Returns the collection afterwards and the total
number of notification sends attempted. -/
def process_task_schedule_runs (store : List StoredTask) (push_ok : Bool)
    (now : Int) (today : String) (runs : List RunItem) : List RunItem × Nat :=
  runs.foldr
    (fun r acc =>
      if r.status = RUN_STATUS_RUNNING then
        ((process_schedule_run store push_ok now today r).1 :: acc.1,
         (process_schedule_run store push_ok now today r).2 + acc.2)
      else (r :: acc.1, acc.2))
    ([], 0)

/-- C3: on a reconciliation pass over a running ScheduleRun, if any
referenced Task is still non-terminal (waiting or running buckets non-zero)
only the summary is rewritten, the status stays running and no notification
is attempted; once every referenced Task is terminal the status becomes
error if any task is error, stop or missing, and finished otherwise. -/
theorem schedule_run_reconciliation_pass (store : List StoredTask)
    (push_ok : Bool) (now : Int) (today : String) (run : RunItem)
    (hrun : run.status = RUN_STATUS_RUNNING) :
    ((build_schedule_run_summary store run.task_ids).waiting > 0 ∨
     (build_schedule_run_summary store run.task_ids).running > 0 →
      process_schedule_run store push_ok now today run =
        ({ run with summary := build_schedule_run_summary store run.task_ids }, 0) ∧
      (process_schedule_run store push_ok now today run).1.status = RUN_STATUS_RUNNING) ∧
    ((build_schedule_run_summary store run.task_ids).waiting = 0 →
     (build_schedule_run_summary store run.task_ids).running = 0 →
      (process_schedule_run store push_ok now today run).1.status =
        (if (build_schedule_run_summary store run.task_ids).error +
            (build_schedule_run_summary store run.task_ids).stop +
            (build_schedule_run_summary store run.task_ids).missing = 0
         then RUN_STATUS_FINISHED else RUN_STATUS_ERROR)) := by
  constructor
  · intro h
    constructor
    · simp only [process_schedule_run]
      rw [if_pos h]
    · simp only [process_schedule_run]
      rw [if_pos h]
      exact hrun
  · intro hw hr
    have hcond : ¬ ((build_schedule_run_summary store run.task_ids).waiting > 0 ∨
        (build_schedule_run_summary store run.task_ids).running > 0) := by omega
    simp only [process_schedule_run, if_neg hcond]
    split_ifs <;> rfl

/-- Concrete running ScheduleRun with no sub-tasks, for the C3 witness. -/
def c3_run : RunItem :=
  { id := "run3"
    schedule_id := "sched3"
    schedule_name := "weekly"
    schedule_type := "recurrent_scan"
    task_tag := "task"
    run_number := 1
    task_ids := []
    status := "running"
    summary := { total := 0, done := 0, error := 0, stop := 0, waiting := 0
                 running := 0, missing := 0, site_cnt := 0, domain_cnt := 0
                 ip_cnt := 0, url_cnt := 0, vuln_cnt := 0, task_details := [] }
    notify_enable := false
    notify_channel := "dingding"
    notify_on := "finished"
    push_status := "pending"
    start_time := 900
    start_date := "2026-01-01"
    end_time := 0
    end_date := "-"
    push_date := "-" }

/-- C3 witness: a running run all of whose (zero) tasks are terminal closes
as finished. -/
theorem schedule_run_reconciliation_pass_witness :
    (process_schedule_run [] true 1000 "2026-01-02" c3_run).1.status =
      RUN_STATUS_FINISHED := by
  have h := (schedule_run_reconciliation_pass [] true 1000 "2026-01-02" c3_run rfl).2
    (by decide) (by decide)
  rw [h]
  decide

/-- C4: a ScheduleRun that is already closed (status finished, e.g. with
push_status success) is not selected by a further reconciliation pass: the
document is unchanged and no second notification send is attempted; and
whenever a running run does close, its push_status is resolved to exactly one
of success, error or skip. -/
theorem schedule_run_closure_idempotent (store : List StoredTask)
    (push_ok : Bool) (now : Int) (today : String) (run : RunItem)
    (hfin : run.status = RUN_STATUS_FINISHED) :
    process_task_schedule_runs store push_ok now today [run] = ([run], 0) ∧
    (∀ r : RunItem,
      (build_schedule_run_summary store r.task_ids).waiting = 0 →
      (build_schedule_run_summary store r.task_ids).running = 0 →
      (process_schedule_run store push_ok now today r).1.push_status = RUN_PUSH_SUCCESS ∨
      (process_schedule_run store push_ok now today r).1.push_status = RUN_PUSH_ERROR ∨
      (process_schedule_run store push_ok now today r).1.push_status = RUN_PUSH_SKIP) := by
  constructor
  · simp [process_task_schedule_runs, hfin, RUN_STATUS_FINISHED, RUN_STATUS_RUNNING]
  · intro r hw hr
    have hcond : ¬ ((build_schedule_run_summary store r.task_ids).waiting > 0 ∨
        (build_schedule_run_summary store r.task_ids).running > 0) := by omega
    simp only [process_schedule_run, if_neg hcond]
    split_ifs <;> simp [RUN_PUSH_SUCCESS, RUN_PUSH_ERROR, RUN_PUSH_SKIP]

/-- Concrete closed ScheduleRun (finished, push_status success), for the C4
witness. -/
def c4_run : RunItem :=
  { id := "run4"
    schedule_id := "sched4"
    schedule_name := "nightly"
    schedule_type := "recurrent_scan"
    task_tag := "task"
    run_number := 7
    task_ids := ["aaaaaaaaaaaaaaaaaaaaaaaa"]
    status := "finished"
    summary := { total := 1, done := 0, error := 0, stop := 0, waiting := 0
                 running := 0, missing := 1, site_cnt := 0, domain_cnt := 0
                 ip_cnt := 0, url_cnt := 0, vuln_cnt := 0, task_details := [] }
    notify_enable := true
    notify_channel := "dingding"
    notify_on := "finished"
    push_status := "success"
    start_time := 800
    start_date := "2026-01-01"
    end_time := 850
    end_date := "2026-01-01"
    push_date := "2026-01-01" }

/-- C4 witness: reconciling again over an already-finished run with
push_status success leaves the collection unchanged and sends nothing. -/
theorem schedule_run_closure_idempotent_witness :
    process_task_schedule_runs [] true 1000 "2026-01-02" [c4_run] = ([c4_run], 0) :=
  (schedule_run_closure_idempotent [] true 1000 "2026-01-02" c4_run rfl).1

/-! ### C7: the domain Monitor Diff Engine -/

/-- A DNS name as its dot-separated label list (a.x.com is the list
[a, x, com]); the labels carry no dots. -/
abbrev DomainName := List String

/-- A resolved IP address. -/
abbrev Ip := String

/-- The fields of a domain_info record that DomainExecutor reads
(info.domain and info.ip_list). -/
structure DomainInfo where
  domain : DomainName
  ip_list : List Ip
deriving Repr, DecidableEq

/-- DomainExecutor.clear_wildcard_domain_info (src/ARL/app/tasks/scheduler.py
lines 330-355): keep exactly the records whose resolved IP set has empty
intersection with the wildcard IP set. -/
def clear_wildcard_domain_info (wildcard_ip_set : List Ip)
    (info_list : List DomainInfo) : List DomainInfo :=
  info_list.filter
    (fun info => !(info.ip_list.any (fun ip => wildcard_ip_set.contains ip)))

/-- Modelled from the spec: utils.domain.cut_first_name is not under src
(app/utils is absent).  Per spec §4.3 step 4 it yields the parent suffix of a
candidate domain: drop the first label, none when no proper parent domain
remains. -/
def cut_first_name (d : DomainName) : Option DomainName :=
  match d with
  | [] => none
  | _ :: rest => if 2 ≤ rest.length then some rest else none

/-- DomainExecutor.set_wildcard_ip_set (src/ARL/app/tasks/scheduler.py lines
304-328): probe one random never-seen label under each distinct parent suffix
of the new domains and collect every IP those probes resolve to.  `resolve`
stands for build_domain_info (app/services, not under src): domain to
resolved IP list; `random_name` for utils.random_choices(6). -/
def set_wildcard_ip_set (resolve : DomainName → List Ip) (random_name : String)
    (new_domain_set : List DomainName) : List Ip :=
  let cut_set := (new_domain_set.filterMap cut_first_name).dedup
  ((cut_set.map (fun c => resolve (random_name :: c))).flatten).dedup

/-- The domain Monitor Diff Engine: DomainExecutor.run steps 2-5
(src/ARL/app/tasks/scheduler.py lines 224-240) with set_domain_info_list
(lines 266-302).  `discovered` is the scan output domain_set, `baseline` the
scope's asset domains (set_scope_domain); candidate_new is their difference;
wildcard clearing applies only when the wildcard IP set is non-empty, as in
the source.  clear_domain_info_by_record (DomainTask, app/tasks/domain.py not
under src) is the parameter `record_filter`; the claims assume of it only
that it returns a sublist of its input. -/
def domain_monitor_diff (resolve : DomainName → List Ip) (random_name : String)
    (record_filter : List DomainInfo → List DomainInfo)
    (discovered baseline : List DomainName) : List DomainName :=
  let new_domain_set := discovered.filter (fun d => !(baseline.contains d))
  let wildcard_ip_set := set_wildcard_ip_set resolve random_name new_domain_set
  let infos := new_domain_set.map (fun d => { domain := d, ip_list := resolve d : DomainInfo })
  let cleared := record_filter infos
  let survivors :=
    if wildcard_ip_set ≠ [] then clear_wildcard_domain_info wildcard_ip_set cleared
    else cleared
  survivors.map DomainInfo.domain

/-- C7: every candidate new domain (discovered minus baseline) whose resolved
IP set intersects the wildcard IP set is dropped from the diff engine's
result. -/
theorem wildcard_suppression_drops_intersecting
    (resolve : DomainName → List Ip) (random_name : String)
    (record_filter : List DomainInfo → List DomainInfo)
    (discovered baseline : List DomainName) (d : DomainName) (ip : Ip)
    (hsub : ∀ l, ∀ x ∈ record_filter l, x ∈ l)
    (hmem : d ∈ discovered) (hnew : d ∉ baseline)
    (hip : ip ∈ resolve d)
    (hwild : ip ∈ set_wildcard_ip_set resolve random_name
      (discovered.filter (fun x => !(baseline.contains x)))) :
    d ∉ domain_monitor_diff resolve random_name record_filter discovered baseline := by
  intro hout
  simp only [domain_monitor_diff] at hout
  have hne : set_wildcard_ip_set resolve random_name
      (discovered.filter (fun x => !(baseline.contains x))) ≠ [] := by
    intro h
    rw [h] at hwild
    exact List.not_mem_nil ip hwild
  rw [if_pos hne] at hout
  obtain ⟨info, hinfo, hdom⟩ := List.mem_map.mp hout
  simp only [clear_wildcard_domain_info] at hinfo
  have hkeep := (List.mem_filter.mp hinfo).2
  have hin : info ∈ (discovered.filter (fun x => !(baseline.contains x))).map
      (fun d => { domain := d, ip_list := resolve d : DomainInfo }) :=
    hsub _ info (List.mem_filter.mp hinfo).1
  obtain ⟨d0, _, hinfo_eq⟩ := List.mem_map.mp hin
  have hips : info.ip_list = resolve d := by
    rw [← hinfo_eq] at hdom ⊢
    simp only [] at hdom ⊢
    rw [hdom]
  have hany : (info.ip_list.any (fun x => (set_wildcard_ip_set resolve random_name
      (discovered.filter (fun x => !(baseline.contains x)))).contains x)) = true := by
    refine List.any_eq_true.mpr ⟨ip, ?_, ?_⟩
    · rw [hips]; exact hip
    · simpa using hwild
  rw [hany] at hkeep
  simp at hkeep

/-- Concrete resolver for the C7 witness: every name, including the random
wildcard probe, resolves to 1.2.3.4. -/
def c7_resolve : DomainName → List Ip := fun _ => ["1.2.3.4"]

/-- Discovered domains a.x.com and b.x.com, for the C7 witness. -/
def c7_discovered : List DomainName := [["a", "x", "com"], ["b", "x", "com"]]

/-- C7 witness: with empty baseline, discovered a.x.com and b.x.com, and the
wildcard probe under x.com resolving to the same 1.2.3.4 both candidates
resolve to, a.x.com is dropped and the whole result is empty. -/
theorem wildcard_suppression_drops_intersecting_witness :
    (["a", "x", "com"] : DomainName) ∉
      domain_monitor_diff c7_resolve "abcdef" id c7_discovered [] ∧
    domain_monitor_diff c7_resolve "abcdef" id c7_discovered [] = [] :=
  ⟨wildcard_suppression_drops_intersecting c7_resolve "abcdef" id c7_discovered []
      ["a", "x", "com"] "1.2.3.4" (fun _ _ h => h) (by decide) (by decide)
      (by decide) (by decide),
   by decide⟩

/-! ### C9: minimum monitor interval at the creation endpoints -/

/-- Python str.split on a one-character separator, over the character list;
like Python, empty chunks are kept. -/
def py_split_char (sep : Char) : List Char → List Char → List String
  | acc, [] => [String.mk acc.reverse]
  | acc, c :: cs =>
    if c = sep then String.mk acc.reverse :: py_split_char sep [] cs
    else py_split_char sep (c :: acc) cs

/-- Python str.split(sep). -/
def py_split (s : String) (sep : Char) : List String :=
  py_split_char sep [] s.toList

/-- Python str.strip(). -/
def py_strip (s : String) : String :=
  String.mk (((s.toList.dropWhile Char.isWhitespace).reverse.dropWhile
    Char.isWhitespace).reverse)

/-- The build_ret outcomes of the three add-monitor endpoints in
src/ARL/app/routes/scheduler.py (ErrorMsg constants; app/modules is not
under src, the outcome names follow the route code). -/
inductive ApiResult where
  | success
  | intervalLessThan3600
  | notFoundScopeID
  | policyIDNotFound
  | domainNotFoundViaScope
  | domainViaJob
  | domainSiteViaJob
deriving Repr, DecidableEq

/-- The scope document the endpoints read (utils.arl.scope_data_by_id). -/
structure ScopeData where
  name : String
  scope_type : String
  scope_array : List String
deriving Repr, DecidableEq

/-- The environment AddARLScheduler.post queries: the scope's monitored
domains (get_monitor_domain_by_id), the scope document, and whether the
optional policy id resolves (get_options_by_policy_id). -/
structure SchedulerAddEnv where
  monitor_domain : List String
  scope_data : Option ScopeData
  policy_found : Bool
deriving Repr

/-- The per-domain validation loop of AddARLScheduler.post
(src/ARL/app/routes/scheduler.py lines 184-195): each stripped target must
lie in the scope and must not already be monitored. -/
def validate_scheduler_domains (domains : List String) (sd : ScopeData)
    (monitor_domain : List String) : Option ApiResult :=
  match domains with
  | [] => none
  | x :: rest =>
    let curr_domain := py_strip x
    if curr_domain ∉ sd.scope_array then some ApiResult.domainNotFoundViaScope
    else if curr_domain ∈ monitor_domain then some ApiResult.domainViaJob
    else validate_scheduler_domains rest sd monitor_domain

/-- AddARLScheduler.post (src/ARL/app/routes/scheduler.py lines 153-227):
outcome plus the MonitorJob records created.  truncate_string is modelled as
the identity (display truncation only); the policy branch checks the id only
when non-empty of length 24, as in the source. -/
def addARLScheduler_post (now : Int) (env : SchedulerAddEnv)
    (scope_id domain : String) (interval : Int) (name policy_id : String) :
    ApiResult × List MonitorJob :=
  if interval < 3600 * 6 then (ApiResult.intervalLessThan3600, [])
  else
    match env.scope_data with
    | none => (ApiResult.notFoundScopeID, [])
    | some scope_data =>
      if policy_id ≠ "" ∧ policy_id.length = 24 ∧ env.policy_found = false then
        (ApiResult.policyIDNotFound, [])
      else
        let scope_type :=
          if scope_data.scope_type = "" then AssetScopeType.DOMAIN
          else scope_data.scope_type
        let domains := py_split domain ','
        match validate_scheduler_domains domains scope_data env.monitor_domain with
        | some err => (err, [])
        | none =>
          let domain_jobs :=
            if scope_type = AssetScopeType.DOMAIN then
              domains.map (fun x => add_job now x scope_id interval
                (if name = "" then "监控-" ++ scope_data.name ++ "-" ++ x else name)
                scope_type)
            else []
          let ip_target := String.intercalate " " domains
          let ip_jobs :=
            if scope_type = AssetScopeType.IP then
              [add_job now ip_target scope_id interval
                (if name = "" then "监控-" ++ scope_data.name ++ "-" ++ ip_target else name)
                scope_type]
            else []
          (ApiResult.success, domain_jobs ++ ip_jobs)

/-- The environment AddSiteScheduler.post / AddWihScheduler.post query: the
scope document and whether the scope already has a monitor of that kind
(have_same_site_update_monitor / have_same_wih_update_monitor). -/
structure MonitorAddEnv where
  scope_data : Option ScopeData
  have_same_monitor : Bool
deriving Repr

/-- AddSiteScheduler.post (src/ARL/app/routes/scheduler.py lines 533-562). -/
def addSiteScheduler_post (now : Int) (env : MonitorAddEnv) (scope_id : String)
    (interval : Int) (name : String) : ApiResult × List MonitorJob :=
  if interval < 3600 * 6 then (ApiResult.intervalLessThan3600, [])
  else
    match env.scope_data with
    | none => (ApiResult.notFoundScopeID, [])
    | some scope_data =>
      if env.have_same_monitor then (ApiResult.domainSiteViaJob, [])
      else
        let name2 := if name = "" then "站点监控-" ++ scope_data.name else name
        (ApiResult.success, [add_asset_site_monitor_job now scope_id name2 interval])

/-- AddWihScheduler.post (src/ARL/app/routes/scheduler.py lines 604-633). -/
def addWihScheduler_post (now : Int) (env : MonitorAddEnv) (scope_id : String)
    (interval : Int) (name : String) : ApiResult × List MonitorJob :=
  if interval < 3600 * 6 then (ApiResult.intervalLessThan3600, [])
  else
    match env.scope_data with
    | none => (ApiResult.notFoundScopeID, [])
    | some scope_data =>
      if env.have_same_monitor then (ApiResult.domainSiteViaJob, [])
      else
        let name2 := if name = "" then "WIH 监控-" ++ scope_data.name else name
        (ApiResult.success, [add_asset_wih_monitor_job now scope_id name2 interval])

/-- The validation loop never produces the interval rejection. -/
theorem validate_scheduler_domains_ne_interval (domains : List String)
    (sd : ScopeData) (mon : List String) :
    validate_scheduler_domains domains sd mon ≠ some ApiResult.intervalLessThan3600 := by
  induction domains with
  | nil => simp [validate_scheduler_domains]
  | cons x rest ih =>
    simp only [validate_scheduler_domains]
    split_ifs <;> simp [ih]

/-- C9: each of the three MonitorJob creation endpoints rejects interval
< 21600 before any job record is created (empty creation list), and an
interval of exactly 21600 passes the interval gate at all three — the
outcome is never the interval rejection. -/
theorem monitor_min_interval_enforced (now : Int) (env1 : SchedulerAddEnv)
    (env2 env3 : MonitorAddEnv) (scope_id domain name policy_id : String)
    (interval : Int) :
    (interval < 21600 →
      addARLScheduler_post now env1 scope_id domain interval name policy_id =
        (ApiResult.intervalLessThan3600, []) ∧
      addSiteScheduler_post now env2 scope_id interval name =
        (ApiResult.intervalLessThan3600, []) ∧
      addWihScheduler_post now env3 scope_id interval name =
        (ApiResult.intervalLessThan3600, [])) ∧
    (interval = 21600 →
      (addARLScheduler_post now env1 scope_id domain interval name policy_id).1 ≠
        ApiResult.intervalLessThan3600 ∧
      (addSiteScheduler_post now env2 scope_id interval name).1 ≠
        ApiResult.intervalLessThan3600 ∧
      (addWihScheduler_post now env3 scope_id interval name).1 ≠
        ApiResult.intervalLessThan3600) := by
  constructor
  · intro h
    have hlt : interval < 3600 * 6 := by omega
    refine ⟨?_, ?_, ?_⟩
    · simp only [addARLScheduler_post]
      rw [if_pos hlt]
    · simp only [addSiteScheduler_post]
      rw [if_pos hlt]
    · simp only [addWihScheduler_post]
      rw [if_pos hlt]
  · intro h
    have hge : ¬ (interval < 3600 * 6) := by omega
    refine ⟨?_, ?_, ?_⟩
    · intro hcontra
      simp only [addARLScheduler_post, if_neg hge] at hcontra
      rcases hsd : env1.scope_data with _ | sd <;> simp only [hsd] at hcontra
      · simp at hcontra
      · by_cases hp : policy_id ≠ "" ∧ policy_id.length = 24 ∧ env1.policy_found = false
        · rw [if_pos hp] at hcontra
          simp at hcontra
        · rw [if_neg hp] at hcontra
          rcases hv : validate_scheduler_domains (py_split domain ',') sd
              env1.monitor_domain with _ | err <;> simp only [hv] at hcontra
          · simp at hcontra
          · exact validate_scheduler_domains_ne_interval _ _ _ (by rw [hv, hcontra])
    · intro hcontra
      simp only [addSiteScheduler_post, if_neg hge] at hcontra
      rcases hsd : env2.scope_data with _ | sd <;> rw [hsd] at hcontra
      · simp at hcontra
      · split_ifs at hcontra
    · intro hcontra
      simp only [addWihScheduler_post, if_neg hge] at hcontra
      rcases hsd : env3.scope_data with _ | sd <;> rw [hsd] at hcontra
      · simp at hcontra
      · split_ifs at hcontra

/-- Trivial environment for the C9 witness. -/
def c9_env1 : SchedulerAddEnv :=
  { monitor_domain := [], scope_data := none, policy_found := false }

/-- Trivial site/WIH environment for the C9 witness. -/
def c9_env2 : MonitorAddEnv := { scope_data := none, have_same_monitor := false }

/-- C9 witness: at interval 100 (< 21600) the site-monitor endpoint rejects
with the interval error and creates no record. -/
theorem monitor_min_interval_enforced_witness :
    addSiteScheduler_post 0 c9_env2 "scope9" 100 "" =
      (ApiResult.intervalLessThan3600, []) :=
  ((monitor_min_interval_enforced 0 c9_env1 c9_env2 c9_env2 "scope9" "d.example"
    "" "" 100).1 (by decide)).2.1

end ARL
